import Mathlib

/-
Verification of the forum GraphQL API client (scripts/forum_api.py).

The Python module is embedded shallowly: each function that the properties
below concern is translated into an executable Lean definition.  Network
effects are made explicit by passing a transport oracle
(Request to HttpResponse) or fetch oracles; the persisted config.json state
is passed and returned explicitly as a JSON object.  Python dictionaries
are modelled as association lists that keep insertion order (first binding
wins on lookup, in-place update on assignment, append for a fresh key),
matching CPython dict semantics for the operations the code uses.
Datetimes are modelled by integers: ISO timestamps with a time zone compare
linearly, and the code only ever compares them.
-/

/-- Python str.lower / str.strip are modelled character-wise.  Python
whitespace for strip: space, tab, newline, carriage return, vertical tab,
form feed. -/
def isPySpace (c : Char) : Bool :=
  c = ' ' || c = '\t' || c = '\n' || c = '\r' || c = '\x0b' || c = '\x0c'

/-- Python str.lower (ASCII case folding, which is all the registry needs). -/
def pyLower (s : String) : String := String.mk (s.data.map Char.toLower)

/-- Python str.strip: drop leading and trailing whitespace. -/
def pyStrip (s : String) : String :=
  String.mk (((s.data.dropWhile isPySpace).reverse.dropWhile isPySpace).reverse)

/-- A JSON value, as handled by the client (json module values). -/
inductive JValue where
  | null : JValue
  | bool : Bool → JValue
  | num : Int → JValue
  | str : String → JValue
  | arr : List JValue → JValue
  | obj : List (String × JValue) → JValue

/-- Python dict lookup d.get(k): the first binding of k, if any. -/
def dget (d : List (String × JValue)) (k : String) : Option JValue :=
  match d with
  | [] => none
  | (k2, v) :: t => if k2 = k then some v else dget t k

/-- Python dict assignment d[k] = v: replace in place, or append a fresh key. -/
def dset (d : List (String × JValue)) (k : String) (v : JValue) :
    List (String × JValue) :=
  match d with
  | [] => [(k, v)]
  | (k2, v2) :: t => if k2 = k then (k, v) :: t else (k2, v2) :: dset t k v

/-- Python "k in d" for a dict. -/
def hasKey (d : List (String × JValue)) (k : String) : Bool := (dget d k).isSome

/-- Python truthiness of a JSON value. -/
def pyTruthy : JValue → Bool
  | JValue.null => false
  | JValue.bool b => b
  | JValue.num n => n != 0
  | JValue.str s => s != ""
  | JValue.arr l => !l.isEmpty
  | JValue.obj d => !d.isEmpty

/-- One entry of the FORUMS registry (forum_api.py lines 32-51). -/
structure ForumConfig where
  name : String
  url : String
  base_url : String
  aliases : List String
deriving DecidableEq

/-- The lesswrong registry entry. -/
def lesswrongConfig : ForumConfig :=
  { name := "LessWrong"
    url := "https://www.lesswrong.com/graphql"
    base_url := "https://www.lesswrong.com"
    aliases := ["lw", "less-wrong"] }

/-- The eaforum registry entry. -/
def eaforumConfig : ForumConfig :=
  { name := "EA Forum"
    url := "https://forum.effectivealtruism.org/graphql"
    base_url := "https://forum.effectivealtruism.org"
    aliases := ["ea", "effective-altruism", "ea-forum"] }

/-- The alignmentforum registry entry. -/
def alignmentforumConfig : ForumConfig :=
  { name := "Alignment Forum"
    url := "https://www.alignmentforum.org/graphql"
    base_url := "https://www.alignmentforum.org"
    aliases := ["af", "alignment", "alignment-forum"] }

/-- FORUMS, in registry order (Python dicts iterate in insertion order). -/
def FORUMS : List (String × ForumConfig) :=
  [("lesswrong", lesswrongConfig),
   ("eaforum", eaforumConfig),
   ("alignmentforum", alignmentforumConfig)]

/-- The registry keys, in order. -/
def forumKeys : List String := FORUMS.map Prod.fst

/-- resolve_forum after the lower/strip fold: exact key match first, then
alias membership in registry order, else the unknown-forum error listing the
valid keys (forum_api.py lines 57-70). -/
def resolve_fold (f : String) : Except String String :=
  if forumKeys.contains f then Except.ok f
  else
    match FORUMS.find? (fun kc => kc.2.aliases.contains f) with
    | some kc => Except.ok kc.1
    | none =>
        Except.error ("Unknown forum: " ++ f ++ ". Valid options: " ++
          String.intercalate ", " forumKeys)

/-- resolve_forum: lower-case and strip the input, then resolve. -/
def resolve_forum (forum_input : String) : Except String String :=
  resolve_fold (pyStrip (pyLower forum_input))

/-- The GraphQL endpoint URL of a canonical key (FORUMS lookup). -/
def forum_url_of (key : String) : String :=
  match FORUMS.find? (fun kc => kc.1 == key) with
  | some kc => kc.2.url
  | none => ""

/-- get_forum_url (forum_api.py lines 73-76): resolve, then read the url. -/
def get_forum_url (forum : String) : Except String String :=
  (resolve_forum forum).map forum_url_of

/-- An HTTP POST request as the client builds it: target URL, JSON payload,
and cookies (empty for unauthenticated calls). -/
structure Request where
  url : String
  payload : List (String × JValue)
  cookies : List (String × JValue)

/-- The transport's answer: HTTP status code and the parsed JSON body (a
GraphQL response is a JSON object). -/
structure HttpResponse where
  status : Nat
  body : List (String × JValue)

/-- The request payload: query text, plus a "variables" entry when truthy
(forum_api.py lines 101-103: an absent or empty variables dict is omitted). -/
def mkPayload (query : String) (queryVariables : Option JValue) :
    List (String × JValue) :=
  match queryVariables with
  | some v => if pyTruthy v then dset [("query", JValue.str query)] "variables" v
              else [("query", JValue.str query)]
  | none => [("query", JValue.str query)]

/-- requests' Response.raise_for_status raises exactly for status 400-599. -/
def raise_status_error (status : Nat) : Bool := decide (400 ≤ status) && decide (status < 600)

/-- The response unwrapping shared by both query paths (forum_api.py lines
110-116 and 161-167): raise_for_status, then raise when the body has an
"errors" key, else return the "data" field or an empty object. -/
def handleResponse (r : HttpResponse) : Except String JValue :=
  if raise_status_error r.status then
    Except.error ("HTTP error: status " ++ toString r.status)
  else if hasKey r.body "errors" then
    Except.error "GraphQL errors"
  else
    Except.ok ((dget r.body "data").getD (JValue.obj []))

/-- graphql_query (forum_api.py lines 97-116): resolve the forum URL, POST
the payload with no cookies, unwrap the response. -/
def graphql_query (query : String) (queryVariables : Option JValue) (forum : String)
    (transport : Request → HttpResponse) : Except String JValue :=
  match get_forum_url forum with
  | Except.error e => Except.error e
  | Except.ok url =>
      handleResponse (transport { url := url, payload := mkPayload query queryVariables, cookies := [] })

/-- The alignmentforum token is stored under lesswrong (same account). -/
def fold_auth_key (key : String) : String :=
  if key = "alignmentforum" then "lesswrong" else key

/-- get_auth_token (forum_api.py lines 119-132): read config auth (default
empty), resolve and fold the forum key, look the token up.  A non-mapping
auth entry fails at the .get call, after forum resolution, as in Python. -/
def get_auth_token (forum : String) (config : List (String × JValue)) :
    Except String (Option JValue) :=
  let auth := (dget config "auth").getD (JValue.obj [])
  match resolve_forum forum with
  | Except.error e => Except.error e
  | Except.ok key =>
      match auth with
      | JValue.obj a => Except.ok (dget a (fold_auth_key key))
      | _ => Except.error "AttributeError: auth is not a mapping"

/-- The missing-token error text of graphql_query_authenticated. -/
def no_token_message (forum : String) : String :=
  "No auth token configured for " ++ forum ++
    ". See the set-token command or add a token to config.json."

/-- graphql_query_authenticated (forum_api.py lines 135-167): look the token
up, fail when it is absent or falsy, else POST with the loginToken cookie
and unwrap the response. -/
def graphql_query_authenticated (query : String) (queryVariables : Option JValue)
    (forum : String) (config : List (String × JValue))
    (transport : Request → HttpResponse) : Except String JValue :=
  match get_auth_token forum config with
  | Except.error e => Except.error e
  | Except.ok none => Except.error (no_token_message forum)
  | Except.ok (some tok) =>
      if pyTruthy tok then
        match get_forum_url forum with
        | Except.error e => Except.error e
        | Except.ok url =>
            handleResponse (transport
              { url := url, payload := mkPayload query queryVariables,
                cookies := [("loginToken", tok)] })
      else Except.error (no_token_message forum)

/-- save_auth_token (forum_api.py lines 170-186): ensure an auth object,
resolve and fold the forum key, store the token, return the folded key and
the config as written back to config.json. -/
def save_auth_token (forum : String) (token : String)
    (config : List (String × JValue)) :
    Except String (String × List (String × JValue)) :=
  let config1 := if hasKey config "auth" then config else dset config "auth" (JValue.obj [])
  match resolve_forum forum with
  | Except.error e => Except.error e
  | Except.ok key0 =>
      match dget config1 "auth" with
      | some (JValue.obj a) =>
          Except.ok (fold_auth_key key0,
            dset config1 "auth" (JValue.obj (dset a (fold_auth_key key0) (JValue.str token))))
      | _ => Except.error "TypeError: auth is not a mapping"

/-- A post as this client reads it: the fields the lookup and filtering code
touches (_id, slug, postedAt as a parsed timestamp, title). -/
structure Post where
  id : String
  title : String
  slug : String
  postedAt : Int
deriving DecidableEq

/-- A comment: the code only filters on its postedAt timestamp. -/
structure Comment where
  id : String
  postedAt : Int
deriving DecidableEq

/-- A tag: name and slug, as search_tags reads them. -/
structure Tag where
  id : String
  name : String
  slug : String
deriving DecidableEq

/-- The character class of the two post-ID regexes: ASCII [a-zA-Z0-9]. -/
def isAlnumAscii (c : Char) : Bool :=
  ('a' ≤ c && c ≤ 'z') || ('A' ≤ c && c ≤ 'Z') || ('0' ≤ c && c ≤ '9')

/-- One anchored attempt of the URL pattern at the head of cs: the literal
"/posts/", then a maximal nonempty alphanumeric run, then a slash.  Shorter
runs need not be tried: a shorter run would have to continue with a slash
that the class excludes. -/
def matchPostsAt (cs : List Char) : Option String :=
  if "/posts/".data.isPrefixOf cs then
    let rest := cs.drop 7
    let run := rest.takeWhile isAlnumAscii
    if !run.isEmpty && ((rest.drop run.length).head? == some '/') then
      some (String.mk run)
    else none
  else none

/-- The leftmost match of the URL pattern, as re.search finds it. -/
def searchPostsId : List Char → Option String
  | [] => none
  | c :: t =>
    match matchPostsAt (c :: t) with
    | some i => some i
    | none => searchPostsId t

/-- The group captured by re.search of /posts/([a-zA-Z0-9]+)/ over the
identifier (forum_api.py line 209). -/
def urlExtract (identifier : String) : Option String :=
  searchPostsId identifier.data

/-- re.match of the anchored raw-ID pattern (forum_api.py line 213):
exactly 17 alphanumerics; the dollar anchor of Python re also accepts one
trailing newline after them. -/
def isPostId (s : String) : Bool :=
  (s.data.length == 17 && s.data.all isAlnumAscii) ||
  (s.data.length == 18 && s.data.getLast? == some '\n' &&
    (s.data.take 17).all isAlnumAscii)

/-- identifier.split(sep=slash)[-1] (forum_api.py line 249). -/
def lastComponent (s : String) : String := (s.splitOn "/").getLastD s

/-- get_post_by_slug (forum_api.py lines 193-287), with the two network
round-trips as oracles: the by-ID query result and the limit-bounded post
list of the slug fallback.  ID extraction tries the URL pattern, then the
raw 17-character ID shape; when an ID lookup yields a post it is returned,
otherwise the code falls back to fetching 1000 posts and scanning for an
exact slug match. -/
def get_post_by_slug (identifier : String)
    (idLookup : String → Option Post) (fetchPosts : Nat → List Post) :
    Except String Post :=
  let post_id : Option String :=
    match urlExtract identifier with
    | some i => some i
    | none => if isPostId identifier then some identifier else none
  let byId : Option Post :=
    match post_id with
    | some i => idLookup i
    | none => none
  match byId with
  | some p => Except.ok p
  | none =>
      match (fetchPosts 1000).find? (fun p => p.slug == lastComponent identifier) with
      | some p => Except.ok p
      | none => Except.error ("Post not found: " ++ identifier)

/-- get_user_posts (forum_api.py lines 433-471): fetch the user's posts
(bounded by limit), then keep the ones with postedAt at or after the cutoff
when one is given. -/
def get_user_posts (user_id : String) (since_date : Option Int) (limit : Nat)
    (fetch : String → Nat → List Post) : List Post :=
  let posts := fetch user_id limit
  match since_date with
  | some d => posts.filter (fun p => decide (d ≤ p.postedAt))
  | none => posts

/-- get_user_comments (forum_api.py lines 474-515): the same shape for
comments. -/
def get_user_comments (user_id : String) (since_date : Option Int) (limit : Nat)
    (fetch : String → Nat → List Comment) : List Comment :=
  let comments := fetch user_id limit
  match since_date with
  | some d => comments.filter (fun c => decide (d ≤ c.postedAt))
  | none => comments

/-- get_posts_by_tag (forum_api.py lines 609-651): the same shape for a
tag's posts. -/
def get_posts_by_tag (tag_id : String) (since_date : Option Int) (limit : Nat)
    (fetch : String → Nat → List Post) : List Post :=
  let posts := fetch tag_id limit
  match since_date with
  | some d => posts.filter (fun p => decide (d ≤ p.postedAt))
  | none => posts

/-- Python substring containment (the "in" operator) over char lists. -/
def listContains (needle : List Char) : List Char → Bool
  | [] => needle.isEmpty
  | c :: t => needle.isPrefixOf (c :: t) || listContains needle t

/-- The search_tags match predicate: lower-cased query contained in the
lower-cased tag name (forum_api.py lines 603-604). -/
def tagMatches (query_str : String) (t : Tag) : Bool :=
  listContains (pyLower query_str).data (pyLower t.name).data

/-- search_tags (forum_api.py lines 578-606): fetch 200 tags, keep the ones
whose name contains the query case-insensitively, truncate to limit. -/
def search_tags (query_str : String) (limit : Nat) (fetch : Nat → List Tag) :
    List Tag :=
  let tags := fetch 200
  let matching := tags.filter (tagMatches query_str)
  matching.take limit

/-- The mutation variables built by create_draft_post (forum_api.py lines
354-371): title, contents wrapping the raw markdown, draft and
submitToFrontpage set, plus url and question when given. -/
def create_draft_variables (title : String) (contents_markdown : String)
    (url : Option String) (question : Bool) : List (String × JValue) :=
  let d := [("title", JValue.str title),
            ("contents", JValue.obj
              [("originalContents", JValue.obj
                [("type", JValue.str "markdown"),
                 ("data", JValue.str contents_markdown)])]),
            ("draft", JValue.bool true),
            ("submitToFrontpage", JValue.bool true)]
  let d1 := match url with
    | some u => if u != "" then dset d "url" (JValue.str u) else d
    | none => d
  let d2 := if question then dset d1 "question" (JValue.bool true) else d1
  [("data", JValue.obj d2)]

/-- The CreatePost mutation text (its content is opaque to the model). -/
def createPostMutation : String := "mutation CreatePost"

/-- create_draft_post (forum_api.py lines 326-374): an authenticated query
with the mutation variables above. -/
def create_draft_post (title : String) (contents_markdown : String)
    (forum : String) (url : Option String) (question : Bool)
    (config : List (String × JValue)) (transport : Request → HttpResponse) :
    Except String JValue :=
  graphql_query_authenticated createPostMutation
    (some (JValue.obj (create_draft_variables title contents_markdown url question)))
    forum config transport

/-- Looking up the key just set yields the new value. -/
theorem dget_dset_self (d : List (String × JValue)) (k : String) (v : JValue) :
    dget (dset d k v) k = some v := by
  induction d with
  | nil => simp [dget, dset]
  | cons h t ih =>
      obtain ⟨k2, v2⟩ := h
      by_cases hk : k2 = k
      · simp [dget, dset, hk]
      · simp [dget, dset, hk, ih]

/-- Setting one key leaves every other lookup unchanged. -/
theorem dget_dset_ne (d : List (String × JValue)) (k k2 : String) (v : JValue)
    (h : k2 ≠ k) : dget (dset d k v) k2 = dget d k2 := by
  induction d with
  | nil => simp [dget, dset, Ne.symm h]
  | cons hd t ih =>
      obtain ⟨k3, v3⟩ := hd
      by_cases hk : k3 = k
      · subst hk
        simp [dget, dset, Ne.symm h]
      · simp only [dset, if_neg hk, dget]
        by_cases hk2 : k3 = k2
        · simp [hk2]
        · simp [hk2, ih]

/-- C1: forum resolution is case-insensitive and alias-complete.  For every
registry entry and every alias it declares, resolve_forum on any string that
lower-cases and strips to the alias returns the same canonical key as
resolve_forum on any string that lower-cases and strips to the canonical
name, namely Except.ok of that key. -/
theorem c1_resolve_forum_alias_complete
    (key : String) (cfg : ForumConfig) (hk : (key, cfg) ∈ FORUMS)
    (a : String) (ha : a ∈ cfg.aliases)
    (s t : String) (hs : pyStrip (pyLower s) = a) (ht : pyStrip (pyLower t) = key) :
    resolve_forum s = Except.ok key ∧ resolve_forum t = Except.ok key := by
  have hres : resolve_forum s = resolve_fold a := by rw [resolve_forum, hs]
  have hret : resolve_forum t = resolve_fold key := by rw [resolve_forum, ht]
  rw [hres, hret]
  simp only [FORUMS, List.mem_cons, List.not_mem_nil, or_false] at hk
  rcases hk with h | h | h <;>
    (rw [Prod.mk.injEq] at h; obtain ⟨rfl, rfl⟩ := h) <;>
    (simp only [lesswrongConfig, eaforumConfig, alignmentforumConfig,
        List.mem_cons, List.not_mem_nil, or_false] at ha) <;>
    rcases ha with rfl | rfl | rfl <;>
    exact ⟨rfl, rfl⟩

/-- C1 witness: the alias "lw" in upper case and the canonical name
"LessWrong" in mixed case both resolve to the key "lesswrong". -/
theorem c1_witness :
    resolve_forum "LW" = Except.ok "lesswrong" ∧
      resolve_forum "LessWrong" = Except.ok "lesswrong" :=
  c1_resolve_forum_alias_complete "lesswrong" lesswrongConfig (by decide)
    "lw" (by decide) "LW" "LessWrong" (by decide) (by decide)

/-- C7: resolving a string equal (after lower/strip) to no registered key
and no listed alias fails with the configuration error that enumerates the
valid forum keys. -/
theorem c7_resolve_forum_unknown (s : String)
    (h : ∀ kc ∈ FORUMS, pyStrip (pyLower s) ≠ kc.1 ∧ pyStrip (pyLower s) ∉ kc.2.aliases) :
    resolve_forum s = Except.error ("Unknown forum: " ++ pyStrip (pyLower s) ++
      ". Valid options: " ++ String.intercalate ", " forumKeys) ∧
    String.intercalate ", " forumKeys = "lesswrong, eaforum, alignmentforum" := by
  have h1 := h ("lesswrong", lesswrongConfig) (by decide)
  have h2 := h ("eaforum", eaforumConfig) (by decide)
  have h3 := h ("alignmentforum", alignmentforumConfig) (by decide)
  simp only [lesswrongConfig, eaforumConfig, alignmentforumConfig,
    List.mem_cons, List.not_mem_nil, or_false, not_or] at h1 h2 h3
  obtain ⟨hk1, ha1, ha2⟩ := h1
  obtain ⟨hk2, hb1, hb2, hb3⟩ := h2
  obtain ⟨hk3, hc1, hc2, hc3⟩ := h3
  refine ⟨?_, by decide⟩
  rw [resolve_forum, resolve_fold]
  rw [if_neg ?_]
  · rw [show FORUMS.find?
        (fun kc => kc.2.aliases.contains (pyStrip (pyLower s))) = none from ?_]
    · simp only [FORUMS, List.find?, lesswrongConfig, eaforumConfig,
        alignmentforumConfig]
      simp [List.elem_iff, ha1, ha2, hb1, hb2, hb3, hc1, hc2, hc3, List.contains]
  · intro hc
    rw [List.elem_iff] at hc
    simp only [forumKeys, FORUMS, List.map, List.mem_cons,
      List.not_mem_nil, or_false] at hc
    rcases hc with hc | hc | hc
    · exact hk1 hc
    · exact hk2 hc
    · exact hk3 hc

/-- C7 witness: the string "reddit" matches no key and no alias and draws
the enumerating error. -/
theorem c7_witness :
    resolve_forum "reddit" = Except.error ("Unknown forum: " ++
      pyStrip (pyLower "reddit") ++
      ". Valid options: " ++ String.intercalate ", " forumKeys) ∧
    String.intercalate ", " forumKeys = "lesswrong, eaforum, alignmentforum" :=
  c7_resolve_forum_unknown "reddit" (by decide)

/-- C2 counterexample.  The claim says graphql_query raises exactly when the
HTTP response is non-2xx or the body has a non-empty errors field.  Two
concrete responses refute it: a 304 response (non-2xx, so the claim says
raise) is returned normally because raise_for_status only raises for
400-599; and a 200 response whose errors field is present but an empty
array (so the claim says return data) is raised on, because the code tests
key presence, not non-emptiness. -/
theorem c2_counterexample :
    (¬ (200 ≤ 304 ∧ 304 < 300) ∧
      handleResponse { status := 304, body := [("data", JValue.obj [("ok", JValue.bool true)])] } =
        Except.ok (JValue.obj [("ok", JValue.bool true)])) ∧
    ((200 ≤ 200 ∧ 200 < 300) ∧
      dget [("errors", JValue.arr []), ("data", JValue.obj [])] "errors" = some (JValue.arr []) ∧
      handleResponse { status := 200, body := [("errors", JValue.arr []), ("data", JValue.obj [])] } =
        Except.error "GraphQL errors") :=
  ⟨⟨by omega, rfl⟩, ⟨by omega, rfl, rfl⟩⟩

/-- C2 amended: graphql_query POSTs without cookies to the resolved forum
URL, and its outcome on the transported response raises exactly when the
status is in 400-599 or the body contains an errors key (empty or not);
otherwise it returns the data field, or an empty object when data is
absent. -/
theorem c2_graphql_query_amended (query : String) (queryVariables : Option JValue)
    (forum fkey : String) (h : resolve_forum forum = Except.ok fkey)
    (transport : Request → HttpResponse) :
    graphql_query query queryVariables forum transport =
      handleResponse (transport
        { url := forum_url_of fkey, payload := mkPayload query queryVariables,
          cookies := [] }) ∧
    ∀ r : HttpResponse,
      ((∃ e, handleResponse r = Except.error e) ↔
        ((400 ≤ r.status ∧ r.status < 600) ∨ hasKey r.body "errors" = true)) ∧
      (¬ ((400 ≤ r.status ∧ r.status < 600) ∨ hasKey r.body "errors" = true) →
        handleResponse r = Except.ok ((dget r.body "data").getD (JValue.obj []))) := by
  constructor
  · rw [graphql_query, get_forum_url, h]
    rfl
  · intro r
    constructor
    · rw [handleResponse]
      by_cases hs : raise_status_error r.status = true
      · have : (400 ≤ r.status ∧ r.status < 600) := by
          rw [raise_status_error] at hs
          simp only [Bool.and_eq_true, decide_eq_true_eq] at hs
          exact hs
        simp [hs, this]
      · have hnot : ¬ (400 ≤ r.status ∧ r.status < 600) := by
          rw [raise_status_error] at hs
          simp only [Bool.and_eq_true, decide_eq_true_eq, not_and] at hs
          intro hcon
          exact absurd (hs hcon.1) (by simpa using hcon.2)
        by_cases he : hasKey r.body "errors" = true
        · simp [hs, he, hnot]
        · simp [hs, he, hnot]
    · intro hnone
      rw [handleResponse]
      have hs : raise_status_error r.status = false := by
        rw [raise_status_error]
        simp only [not_or, not_and] at hnone
        simp only [Bool.and_eq_false_iff, decide_eq_false_iff_not]
        by_cases h4 : 400 ≤ r.status
        · exact Or.inr (hnone.1 h4)
        · exact Or.inl h4
      have he : hasKey r.body "errors" = false := by
        simp only [not_or] at hnone
        exact Bool.not_eq_true _ ▸ (by simpa using hnone.2)
      simp [hs, he]

/-- C2 witness: a clean 200 response on lesswrong is unwrapped to its data
field. -/
theorem c2_witness :
    graphql_query "q" none "lesswrong"
      (fun _ => { status := 200, body := [("data", JValue.num 1)] }) =
      Except.ok (JValue.num 1) := by
  rw [(c2_graphql_query_amended "q" none "lesswrong" "lesswrong" rfl
    (fun _ => { status := 200, body := [("data", JValue.num 1)] })).1]
  rfl

/-- The config precondition under which Python token writes succeed: the
auth entry, when present, is a mapping. -/
def authOk (config : List (String × JValue)) : Bool :=
  match dget config "auth" with
  | none => true
  | some (JValue.obj _) => true
  | some _ => false

/-- C3: token storage and lookup share the alias-folding rule and
round-trip.  On any config whose auth entry is a mapping (or absent),
saving a token for alignmentforum and reading it for lesswrong returns the
token, and saving for lesswrong and reading for alignmentforum does too. -/
theorem c3_token_roundtrip (config : List (String × JValue)) (t : String)
    (h : authOk config = true) :
    ((save_auth_token "alignmentforum" t config).bind
        (fun r => get_auth_token "lesswrong" r.2) = Except.ok (some (JValue.str t))) ∧
    ((save_auth_token "lesswrong" t config).bind
        (fun r => get_auth_token "alignmentforum" r.2) = Except.ok (some (JValue.str t))) := by
  have hres1 : resolve_forum "alignmentforum" = Except.ok "alignmentforum" := rfl
  have hres2 : resolve_forum "lesswrong" = Except.ok "lesswrong" := rfl
  cases hdg : dget config "auth" with
  | none =>
      have hk : hasKey config "auth" = false := by simp [hasKey, hdg]
      constructor <;>
        simp [save_auth_token, get_auth_token, hk, hdg, hres1, hres2,
          dget_dset_self, fold_auth_key, Except.bind, dset, dget]
  | some v =>
      cases v with
      | obj a =>
          have hk : hasKey config "auth" = true := by simp [hasKey, hdg]
          constructor <;>
            simp [save_auth_token, get_auth_token, hk, hdg, hres1, hres2,
              dget_dset_self, fold_auth_key, Except.bind, dset, dget]
      | null => simp [authOk, hdg] at h
      | bool b => simp [authOk, hdg] at h
      | num n => simp [authOk, hdg] at h
      | str s => simp [authOk, hdg] at h
      | arr l => simp [authOk, hdg] at h

/-- C3 witness: the round trip on the empty config. -/
theorem c3_witness :
    ((save_auth_token "alignmentforum" "tok" []).bind
        (fun r => get_auth_token "lesswrong" r.2) = Except.ok (some (JValue.str "tok"))) ∧
    ((save_auth_token "lesswrong" "tok" []).bind
        (fun r => get_auth_token "alignmentforum" r.2) = Except.ok (some (JValue.str "tok"))) :=
  c3_token_roundtrip [] "tok" rfl

/-- C4: when the stored token for a forum is absent, the authenticated query
fails with the no-auth-token-configured error whatever the transport does:
the outcome does not depend on the transport, so no POST is issued. -/
theorem c4_no_token_before_network (query : String) (queryVariables : Option JValue)
    (forum : String) (config : List (String × JValue))
    (h : get_auth_token forum config = Except.ok none) :
    ∀ transport : Request → HttpResponse,
      graphql_query_authenticated query queryVariables forum config transport =
        Except.error (no_token_message forum) := by
  intro transport
  simp only [graphql_query_authenticated, h]

/-- C4 witness: on the empty config, an authenticated lesswrong call fails
with the no-token error and ignores the transport. -/
theorem c4_witness :
    graphql_query_authenticated "q" none "lesswrong" []
      (fun _ => { status := 200, body := [] }) =
      Except.error (no_token_message "lesswrong") :=
  c4_no_token_before_network "q" none "lesswrong" [] rfl
    (fun _ => { status := 200, body := [] })

/-- C5: get_post_by_slug resolves its identifier in order.  A URL-pattern
match is extracted and looked up by ID; failing the URL pattern, a
17-character alphanumeric identifier is looked up as the ID itself; with
neither shape, the code fetches 1000 posts and returns the first exact slug
match on the last path component, or the not-found error. -/
theorem c5_get_post_by_slug_order (identifier : String)
    (idLookup : String → Option Post) (fetchPosts : Nat → List Post) :
    (∀ i p, urlExtract identifier = some i → idLookup i = some p →
      get_post_by_slug identifier idLookup fetchPosts = Except.ok p) ∧
    (∀ p, urlExtract identifier = none → isPostId identifier = true →
      idLookup identifier = some p →
      get_post_by_slug identifier idLookup fetchPosts = Except.ok p) ∧
    (urlExtract identifier = none → isPostId identifier = false →
      get_post_by_slug identifier idLookup fetchPosts =
        match (fetchPosts 1000).find? (fun p => p.slug == lastComponent identifier) with
        | some p => Except.ok p
        | none => Except.error ("Post not found: " ++ identifier)) := by
  refine ⟨?_, ?_, ?_⟩
  · intro i p hurl hid
    simp only [get_post_by_slug, hurl, hid]
  · intro p hurl hpid hid
    simp only [get_post_by_slug, hurl, hpid, if_true, hid]
  · intro hurl hpid
    simp only [get_post_by_slug, hurl, hpid, Bool.false_eq_true, if_false]

/-- C6: the client-side date filter of get_user_posts, get_user_comments
and get_posts_by_tag keeps exactly the fetched items whose timestamp is at
or after the cutoff, in fetched order; an item whose timestamp equals the
cutoff is retained. -/
theorem c6_date_filter_inclusive (d : Int) (uid tid : String)
    (limP limC limT : Nat)
    (fetchP : String → Nat → List Post) (fetchC : String → Nat → List Comment)
    (fetchT : String → Nat → List Post) :
    (∀ p, p ∈ get_user_posts uid (some d) limP fetchP ↔
      p ∈ fetchP uid limP ∧ d ≤ p.postedAt) ∧
    (∀ c, c ∈ get_user_comments uid (some d) limC fetchC ↔
      c ∈ fetchC uid limC ∧ d ≤ c.postedAt) ∧
    (∀ p, p ∈ get_posts_by_tag tid (some d) limT fetchT ↔
      p ∈ fetchT tid limT ∧ d ≤ p.postedAt) ∧
    List.Sublist (get_user_posts uid (some d) limP fetchP) (fetchP uid limP) ∧
    List.Sublist (get_user_comments uid (some d) limC fetchC) (fetchC uid limC) ∧
    List.Sublist (get_posts_by_tag tid (some d) limT fetchT) (fetchT tid limT) := by
  refine ⟨?_, ?_, ?_, ?_, ?_, ?_⟩
  · intro p
    simp [get_user_posts, List.mem_filter]
  · intro c
    simp [get_user_comments, List.mem_filter]
  · intro p
    simp [get_posts_by_tag, List.mem_filter]
  · exact List.filter_sublist _
  · exact List.filter_sublist _
  · exact List.filter_sublist _

/-- C8: create_draft_post with a title and markdown content builds mutation
variables whose data object carries draft true, submitToFrontpage true, the
title, and the raw markdown unchanged under contents.originalContents.data
with type markdown; create_draft_post sends exactly these variables through
the authenticated query path. -/
theorem c8_create_draft_payload (title md : String) :
    (∃ d, create_draft_variables title md none false = [("data", JValue.obj d)] ∧
      dget d "draft" = some (JValue.bool true) ∧
      dget d "submitToFrontpage" = some (JValue.bool true) ∧
      dget d "title" = some (JValue.str title) ∧
      dget d "contents" = some (JValue.obj
        [("originalContents", JValue.obj
          [("type", JValue.str "markdown"), ("data", JValue.str md)])])) ∧
    (∀ forum config transport,
      create_draft_post title md forum none false config transport =
        graphql_query_authenticated createPostMutation
          (some (JValue.obj (create_draft_variables title md none false)))
          forum config transport) := by
  refine ⟨⟨_, rfl, rfl, rfl, rfl, rfl⟩, fun _ _ _ => rfl⟩

/-- C9: search_tags returns exactly the first limit fetched tags whose name
contains the query case-insensitively, in fetched order: it equals the
filtered fetch list truncated to limit.  Consequently it is a sublist of the
fetched tags, every returned tag matches, at most limit tags come back, the
whole match list is returned whenever it fits the limit, and on the mocked
two-tag list with query alignment and limit 10 only the AI Alignment entry
comes back. -/
theorem c9_search_tags (query_str : String) (limit : Nat) (fetch : Nat → List Tag) :
    search_tags query_str limit fetch =
      ((fetch 200).filter (tagMatches query_str)).take limit ∧
    List.Sublist (search_tags query_str limit fetch) (fetch 200) ∧
    (∀ t, t ∈ search_tags query_str limit fetch →
      t ∈ fetch 200 ∧ tagMatches query_str t = true) ∧
    (search_tags query_str limit fetch).length ≤ limit ∧
    (((fetch 200).filter (tagMatches query_str)).length ≤ limit →
      search_tags query_str limit fetch = (fetch 200).filter (tagMatches query_str)) ∧
    search_tags "alignment" 10
      (fun _ => [{ id := "t1", name := "AI Alignment", slug := "ai-alignment" },
                 { id := "t2", name := "Epistemology", slug := "epistemology" }]) =
      [{ id := "t1", name := "AI Alignment", slug := "ai-alignment" }] := by
  refine ⟨rfl, ?_, ?_, ?_, ?_, ?_⟩
  · exact (List.take_sublist _ _).trans (List.filter_sublist _)
  · intro t ht
    have h1 : t ∈ (fetch 200).filter (tagMatches query_str) :=
      List.mem_of_mem_take ht
    rw [List.mem_filter] at h1
    exact ⟨h1.1, h1.2⟩
  · exact List.length_take_le _ _
  · intro hle
    exact List.take_of_length_le hle
  · rfl

/-- The auth mapping of a config, as the token functions read it. -/
def auth_entries (config : List (String × JValue)) : List (String × JValue) :=
  match dget config "auth" with
  | some (JValue.obj a) => a
  | _ => []

/-- C10: save_auth_token only touches the auth entry for the folded forum
key.  When it succeeds, the returned key is the fold of the resolved forum,
every top-level config field other than auth is written back unchanged,
every auth entry for a different key is unchanged, and the token sits under
the returned key. -/
theorem c10_save_auth_token_frame (config : List (String × JValue))
    (forum token key : String) (config2 : List (String × JValue))
    (h : save_auth_token forum token config = Except.ok (key, config2)) :
    (∃ k0, resolve_forum forum = Except.ok k0 ∧ key = fold_auth_key k0) ∧
    (∀ k, k ≠ "auth" → dget config2 k = dget config k) ∧
    (∀ k, k ≠ key → dget (auth_entries config2) k = dget (auth_entries config) k) ∧
    dget (auth_entries config2) key = some (JValue.str token) := by
  cases hres : resolve_forum forum with
  | error e => simp [save_auth_token, hres] at h
  | ok k0 =>
      cases hk : hasKey config "auth" with
      | false =>
          have hdg : dget config "auth" = none := by
            rw [hasKey] at hk
            exact Option.not_isSome_iff_eq_none.mp (by simp [hk])
          have hone : dget (dset config "auth" (JValue.obj [])) "auth" =
              some (JValue.obj []) := dget_dset_self _ _ _
          simp only [save_auth_token, hres, hk, Bool.false_eq_true, if_false,
            hone, dset, Except.ok.injEq, Prod.mk.injEq] at h
          obtain ⟨hkey, hcfg⟩ := h
          subst hkey
          subst hcfg
          refine ⟨⟨k0, rfl, rfl⟩, ?_, ?_, ?_⟩
          · intro k hkk
            rw [dget_dset_ne _ _ _ _ hkk, dget_dset_ne _ _ _ _ hkk]
          · intro k hkk
            rw [auth_entries, auth_entries, dget_dset_self, hdg]
            simp [dget, Ne.symm hkk]
          · rw [auth_entries, dget_dset_self]
            simp [dget]
      | true =>
          cases hdg : dget config "auth" with
          | none => rw [hasKey, hdg] at hk; simp at hk
          | some v =>
              cases v with
              | obj a =>
                  simp only [save_auth_token, hres, hk, if_true, hdg,
                    Except.ok.injEq, Prod.mk.injEq] at h
                  obtain ⟨hkey, hcfg⟩ := h
                  subst hkey
                  subst hcfg
                  refine ⟨⟨k0, rfl, rfl⟩, ?_, ?_, ?_⟩
                  · intro k hkk
                    rw [dget_dset_ne _ _ _ _ hkk]
                  · intro k hkk
                    rw [auth_entries, auth_entries, dget_dset_self, hdg]
                    rw [dget_dset_ne _ _ _ _ hkk]
                  · rw [auth_entries, dget_dset_self]
                    exact dget_dset_self _ _ _
              | null => simp [save_auth_token, hres, hk, hdg] at h
              | bool b => simp [save_auth_token, hres, hk, hdg] at h
              | num n => simp [save_auth_token, hres, hk, hdg] at h
              | str s => simp [save_auth_token, hres, hk, hdg] at h
              | arr l => simp [save_auth_token, hres, hk, hdg] at h

/-- C10 witness: saving an af token on a config holding digest_days stores
it under lesswrong and leaves digest_days alone. -/
theorem c10_witness :
    dget (auth_entries [("digest_days", JValue.num 7),
        ("auth", JValue.obj [("lesswrong", JValue.str "tok")])]) "lesswrong" =
      some (JValue.str "tok") ∧
    dget [("digest_days", JValue.num 7),
        ("auth", JValue.obj [("lesswrong", JValue.str "tok")])] "digest_days" =
      dget [("digest_days", JValue.num 7)] "digest_days" := by
  have h := c10_save_auth_token_frame [("digest_days", JValue.num 7)] "af" "tok"
    "lesswrong" [("digest_days", JValue.num 7),
      ("auth", JValue.obj [("lesswrong", JValue.str "tok")])] rfl
  exact ⟨h.2.2.2, h.2.1 "digest_days" (by decide)⟩
